import Mathlib

/-!
Shallow embedding of `farm-sequential.js` (SmartFarm repository).

The script drives a sequential loop of `NUM` iterations; each iteration
creates an ephemeral wallet, optionally saves it, funds it through the
`p-retry` wrapper, sleeps a 1 second settle delay, submits a
`storeMessage` transaction through `p-retry` (with gas estimation whose
intended 300000 fallback path is itself broken, see `storeAttempt`), and
sleeps `RATE_SECONDS` before the next iteration.
External effects (the RPC node, randomness) are modelled as per-iteration
oracles; file writes and sleeps are modelled as an emitted event trace.
-/

deriving instance DecidableEq for Except

namespace SmartFarm

/-- A signing identity as produced by `createWallet` (address and private
key are the only attributes the script reads). -/
structure Wallet where
  address : String
  privateKey : String
deriving DecidableEq, Repr

/-- One element of the `results` array of `main`: exactly the fields the
four `results.push` sites of `farm-sequential.js` can set. -/
structure IterationResult where
  index : Nat
  address : Option String := none
  status : String
  step : Option String := none
  txHash : Option String := none
  error : Option String := none
deriving DecidableEq, Repr

/-- The configuration surface of the script after CLI/env resolution
(lines 9-82): `rpc`, `contract` and `funderKey` are `none` when the
corresponding flag/env variable is absent. -/
structure Config where
  num : Nat
  rate : Int
  amount : String
  useHd : Bool
  saveWallets : Bool
  rpc : Option String
  contract : Option String
  funderKey : Option String
  mnemonic : Option String
  messageBase : String
deriving DecidableEq, Repr

/-- yargs default for `--rate` (line 19 of the source). -/
def defaultRate : Int := 2

/-- yargs default for `--num` (line 13 of the source). -/
def defaultNum : Nat := 20

/-- `const RATE_SECONDS = Math.max(1, argv.rate)` (line 74). -/
def RATE_SECONDS (rate : Int) : Int := max 1 rate

/-- Observable side effects of one run, in program order: incremental
`wallets.json` writes, the funding submission step, the 1 s settle sleep,
the `storeMessage` submission step, and the rate-limit sleep. -/
inductive Event where
  | saveWallet (index : Nat) (address : String) (privateKey : String)
  | fundSubmit (index : Nat)
  | settleSleep (ms : Nat)
  | storeSubmit (index : Nat)
  | rateSleep (ms : Int)
deriving DecidableEq, Repr

/-- `RetryOutcome` of the `pRetry` model: final result, number of
`onFailedAttempt` invocations, and number of attempts executed. -/
structure RetryOutcome (α : Type) where
  result : Except String α
  hookCalls : Nat
  attempts : Nat
deriving Repr

/-- The `RetryOperation.prototype.mainError` function of the `retry`
package underlying `p-retry`: walk the
recorded errors, tracking the message whose running occurrence count is
maximal, later entries winning ties (`count >= mainErrorCount`). -/
def mainErrorGo : List String → List String → Option String → Nat → Option String
  | [], _, best, _ => best
  | e :: rest, seen, best, bestCount =>
      let seenNow := seen ++ [e]
      let c := seenNow.count e
      if bestCount ≤ c then mainErrorGo rest seenNow (some e) c
      else mainErrorGo rest seenNow best bestCount

/-- Entry point of the `mainError` walk over the full error list. -/
def mainError (errors : List String) : Option String :=
  mainErrorGo errors [] none 0

/-- A JavaScript exception as seen by the `p-retry` catch handler: an
ordinary `Error` (network and RPC failures, identified by message), or a
`TypeError`, which `p-retry` treats specially. -/
inductive JsError where
  | jsError (msg : String)
  | typeError (msg : String)
deriving DecidableEq, Repr

/-- Model of the `p-retry` library as used at lines 122 and 211: run the
operation at attempt numbers 1, 2, ...; on every failed attempt with an
ordinary `Error` (including the last) invoke `onFailedAttempt` (counted
here); while retries remain, retry; once exhausted reject with
`operation.mainError()`. A `TypeError` instead stops the operation and is
rejected immediately — no hook call, no retry. (`p-retry` exempts from
this only TypeErrors whose message is one of a fixed list of browser
network-error messages, which none of the TypeErrors reachable here
carry.) -/
def pRetryGo (op : Nat → Except JsError α) (attempt : Nat) (retriesLeft : Nat)
    (errs : List String) : RetryOutcome α :=
  match op attempt with
  | .ok a => { result := .ok a, hookCalls := errs.length, attempts := attempt }
  | .error (.typeError m) =>
      { result := .error m, hookCalls := errs.length, attempts := attempt }
  | .error (.jsError e) =>
      match retriesLeft with
      | 0 =>
          { result := .error ((mainError (errs ++ [e])).getD e)
            hookCalls := errs.length + 1
            attempts := attempt }
      | r + 1 => pRetryGo op (attempt + 1) r (errs ++ [e])

/-- `pRetry` applied to an operation that can throw either kind of
exception. -/
def pRetryTyped (retries : Nat) (op : Nat → Except JsError α) : RetryOutcome α :=
  pRetryGo op 1 retries []

/-- `pRetry` applied to an operation that only throws ordinary Errors —
the funding call of line 211, whose failures all come from
`sendTransaction`/`wait`. Both call sites use 2 retries. -/
def pRetry (retries : Nat) (op : Nat → Except String α) : RetryOutcome α :=
  pRetryTyped retries (fun k =>
    match op k with
    | .ok a => .ok a
    | .error e => .error (.jsError e))

/-- Outcomes of the external calls made by one attempt of the
`sendStoreMessageTx` retry body (lines 123-154): `estimateGas`,
`wallet.sendTransaction` (as a function of the gas limit used) and
`tx.wait`. -/
structure StoreAttemptEnv where
  estimateGas : Except String Nat
  sendTx : Nat → Except String String
  waitReceipt : Except String Unit

/-- Lines 145-153: send the transaction with the given gas limit and wait
for the receipt, returning the transaction hash. -/
def submitWithGas (env : StoreAttemptEnv) (gasLimit : Nat) : Except String String :=
  match env.sendTx gasLimit with
  | .error e => .error e
  | .ok h =>
      match env.waitReceipt with
      | .error e => .error e
      | .ok _ => .ok h

/-- One attempt of the `sendStoreMessageTx` retry body (lines 123-154):
when gas estimation succeeds, the estimate is used for the submission,
and any submission or confirmation failure is an ordinary `Error`. When
estimation fails, the catch block at line 141 evaluates
`ethers.BigInt(300000)` — but ethers exports no `BigInt` function, so
instead of installing the 300000 fallback the catch block itself throws
`TypeError: ethers.BigInt is not a function`, and the attempt rejects
with that TypeError. -/
def storeAttempt (env : StoreAttemptEnv) : Except JsError String :=
  match env.estimateGas with
  | .ok g =>
      match submitWithGas env g with
      | .ok h => .ok h
      | .error e => .error (.jsError e)
  | .error _ => .error (.typeError "ethers.BigInt is not a function")

/-- Oracles for the external calls of one loop iteration: the random
wallet draw, the HD derivation, each funding attempt (lines 211-216),
the balance read of line 117, and each `storeMessage` attempt. -/
structure IterEnv where
  randomWallet : Except String Wallet
  hdWallet : Except String Wallet
  fundAttempts : Nat → Except String String
  balance : Except String Nat
  storeAttempts : Nat → StoreAttemptEnv

/-- `createWallet(index)` (lines 93-104): in HD mode a missing `MNEMONIC`
throws; otherwise the identity comes from the derivation or the random
generator. -/
def createWallet (cfg : Config) (env : IterEnv) : Except String Wallet :=
  if cfg.useHd then
    match cfg.mnemonic with
    | none => .error "MNEMONIC required when --useHd is set."
    | some _ => env.hdWallet
  else env.randomWallet

/-- `sendStoreMessageTx` (lines 114-162): read the wallet balance (a
throw here propagates to the caller), then run the store attempt under
`pRetry` with 2 retries. -/
def sendStoreMessageTx (env : IterEnv) : RetryOutcome String :=
  match env.balance with
  | .error e => { result := .error e, hookCalls := 0, attempts := 0 }
  | .ok _ => pRetryTyped 2 (fun k => storeAttempt (env.storeAttempts k))

/-- One iteration of the `main` loop (lines 176-270): create the wallet
(a failure is recorded as step `create` and skips everything else), save
it when enabled, fund it under `pRetry` (a failure is recorded as step
`fund` and skips the settle sleep, the store step and the rate sleep),
sleep 1 s, run `sendStoreMessageTx` (success records `ok` with the hash,
failure records step `store`), and sleep `RATE_SECONDS` either way. -/
def runIteration (cfg : Config) (i : Nat) (env : IterEnv) :
    IterationResult × List Event :=
  match createWallet cfg env with
  | .error e =>
      ({ index := i, status := "fail", step := some "create", error := some e }, [])
  | .ok w =>
      let evSave : List Event :=
        if cfg.saveWallets then [.saveWallet i w.address w.privateKey] else []
      match (pRetry 2 env.fundAttempts).result with
      | .error e =>
          ({ index := i, address := some w.address, status := "fail",
             step := some "fund", error := some e },
           evSave ++ [.fundSubmit i])
      | .ok _ =>
          let res : IterationResult :=
            match (sendStoreMessageTx env).result with
            | .ok h =>
                { index := i, address := some w.address, status := "ok",
                  txHash := some h }
            | .error e =>
                { index := i, address := some w.address, status := "fail",
                  step := some "store", error := some e }
          (res, evSave ++ [.fundSubmit i, .settleSleep 1000, .storeSubmit i,
                           .rateSleep (RATE_SECONDS cfg.rate * 1000)])

/-- The `for (let i = 0; i < NUM; i++)` loop of `main`, accumulating the
`results` array and the event trace over the first `n` iterations. -/
def mainLoop (cfg : Config) (envs : Nat → IterEnv) : Nat → List IterationResult × List Event
  | 0 => ([], [])
  | n + 1 =>
      let acc := mainLoop cfg envs n
      let one := runIteration cfg n (envs n)
      (acc.1 ++ [one.1], acc.2 ++ one.2)

/-- The object written to `farm-results.json` at lines 273-287 (the
wall-clock `date` field is not modelled). -/
structure RunSummary where
  rpc : String
  contract : String
  rateSeconds : Int
  fundAmount : String
  results : List IterationResult
deriving DecidableEq, Repr

/-- Outcome of the whole process: exit code, the summary written (if
any), and the event trace. -/
structure ProcessOutcome where
  exitCode : Nat
  summary : Option RunSummary
  events : List Event
deriving DecidableEq, Repr

/-- The startup checks of lines 55-68: any of RPC URL, contract address
or funder key missing aborts with exit code 1. -/
def configMissing (cfg : Config) : Bool :=
  cfg.rpc.isNone || cfg.contract.isNone || cfg.funderKey.isNone

/-- The whole process: the startup checks, then `main` — which runs all
`NUM` iterations, writes `farm-results.json` once, and returns normally,
so the process exits 0. -/
def runProcess (cfg : Config) (envs : Nat → IterEnv) : ProcessOutcome :=
  if configMissing cfg then
    { exitCode := 1, summary := none, events := [] }
  else
    let run := mainLoop cfg envs cfg.num
    { exitCode := 0
      summary := some
        { rpc := cfg.rpc.getD "", contract := cfg.contract.getD "",
          rateSeconds := RATE_SECONDS cfg.rate, fundAmount := cfg.amount,
          results := run.1 }
      events := run.2 }

/-! ### Concrete inputs used to witness the theorems -/

/-- A fully supplied configuration (two iterations). -/
def cfgOk : Config :=
  { num := 2, rate := 2, amount := "0.000002", useHd := false,
    saveWallets := true, rpc := some "https://mainnet.base.org",
    contract := some "0xDD40", funderKey := some "0xfunder",
    mnemonic := none, messageBase := "Hello from farm!" }

/-- `cfgOk` with the RPC URL missing. -/
def cfgMissingRpc : Config := { cfgOk with rpc := none }

/-- `cfgOk` in HD mode with the seed phrase absent, one iteration. -/
def cfgHdNoMnemonic : Config := { cfgOk with useHd := true, mnemonic := none, num := 1 }

/-- A deterministic example wallet per index. -/
def wOk (i : Nat) : Wallet :=
  { address := "0xaddr" ++ toString i, privateKey := "0xkey" ++ toString i }

/-- Iteration oracles in which every external call succeeds. -/
def envAllOk (i : Nat) : IterEnv :=
  { randomWallet := .ok (wOk i)
    hdWallet := .ok (wOk i)
    fundAttempts := fun _ => .ok "0xfundtx"
    balance := .ok 2000000000000
    storeAttempts := fun _ =>
      { estimateGas := .ok 60000
        sendTx := fun _ => .ok "0xstoretx"
        waitReceipt := .ok () } }

/-- Iteration oracles in which every funding attempt is rejected with a
distinct message. -/
def envFundFail (i : Nat) : IterEnv :=
  { envAllOk i with fundAttempts := fun k => .error ("nonce conflict " ++ toString k) }

/-- Iteration oracles in which funding succeeds but every `storeMessage`
submission attempt is rejected with a distinct message. -/
def envStoreFail (i : Nat) : IterEnv :=
  { envAllOk i with storeAttempts := fun k =>
      { estimateGas := .ok 60000
        sendTx := fun _ => .error ("insufficient funds " ++ toString k)
        waitReceipt := .ok () } }

/-- Iteration oracles in which wallet creation itself throws. -/
def envCreateFail (i : Nat) : IterEnv :=
  { envAllOk i with
      randomWallet := .error "entropy source unavailable"
      hdWallet := .error "entropy source unavailable" }

/-- A store attempt whose gas estimation fails but whose submission and
confirmation succeed. -/
def storeEnvEstFail : StoreAttemptEnv :=
  { estimateGas := .error "execution reverted"
    sendTx := fun g => .ok ("0xtx-gas" ++ toString g)
    waitReceipt := .ok () }

/-! ### Helper lemmas -/

/-- The `results` array after `n` iterations is exactly the per-iteration
records in index order. -/
theorem mainLoop_results_eq (cfg : Config) (envs : Nat → IterEnv) :
    ∀ n, (mainLoop cfg envs n).1 =
      (List.range n).map (fun j => (runIteration cfg j (envs j)).1) := by
  intro n
  induction n with
  | zero => rfl
  | succ k ih => simp [mainLoop, ih, List.range_succ]

/-- Every iteration records its own index. -/
theorem runIteration_index (cfg : Config) (i : Nat) (env : IterEnv) :
    (runIteration cfg i env).1.index = i := by
  unfold runIteration
  cases hc : createWallet cfg env with
  | error e => rfl
  | ok w =>
    cases hf : (pRetry 2 env.fundAttempts).result with
    | error e => rfl
    | ok f =>
      cases hs : (sendStoreMessageTx env).result with
      | ok h => rfl
      | error e => rfl

/-- Every iteration records one of the four record shapes pushed by the
four `results.push` sites of `main`. -/
theorem runIteration_shape (cfg : Config) (i : Nat) (env : IterEnv) :
    (∃ e, (runIteration cfg i env).1 =
      { index := i, status := "fail", step := some "create", error := some e }) ∨
    (∃ a e, (runIteration cfg i env).1 =
      { index := i, address := some a, status := "fail", step := some "fund",
        error := some e }) ∨
    (∃ a e, (runIteration cfg i env).1 =
      { index := i, address := some a, status := "fail", step := some "store",
        error := some e }) ∨
    (∃ a h, (runIteration cfg i env).1 =
      { index := i, address := some a, status := "ok", txHash := some h }) := by
  unfold runIteration
  cases hc : createWallet cfg env with
  | error e => exact Or.inl ⟨e, rfl⟩
  | ok w =>
    cases hf : (pRetry 2 env.fundAttempts).result with
    | error e => exact Or.inr (Or.inl ⟨w.address, e, rfl⟩)
    | ok f =>
      cases hs : (sendStoreMessageTx env).result with
      | ok h => exact Or.inr (Or.inr (Or.inr ⟨w.address, h, by simp⟩))
      | error e => exact Or.inr (Or.inr (Or.inl ⟨w.address, e, by simp⟩))

/-- `mainError` on three messages returns the third one, unless the first
two agree and the third differs. -/
theorem mainError_three (e1 e2 e3 : String) (h : e1 ≠ e2 ∨ e2 = e3) :
    mainError [e1, e2, e3] = some e3 := by
  rcases h with h12 | h23
  · have hb : (e1 == e2) = false := beq_false_of_ne h12
    simp [mainError, mainErrorGo, List.count_cons, List.count_nil, hb]
  · subst h23
    by_cases h12 : e1 = e2
    · subst h12
      simp [mainError, mainErrorGo, List.count_cons, List.count_nil]
    · have hb : (e1 == e2) = false := beq_false_of_ne h12
      simp [mainError, mainErrorGo, List.count_cons, List.count_nil, hb]

/-- `pRetry` with 2 retries when the first attempt succeeds. -/
theorem pRetry_first_ok (op : Nat → Except String α) (a : α)
    (h1 : op 1 = .ok a) :
    pRetry 2 op = { result := .ok a, hookCalls := 0, attempts := 1 } := by
  simp [pRetry, pRetryTyped, pRetryGo, h1]

/-- `pRetry` with 2 retries when all three attempts fail with ordinary
Errors: three attempts, three hook invocations, and the `mainError` of
the three messages is propagated. -/
theorem pRetry_two_all_fail (op : Nat → Except String α) (e1 e2 e3 : String)
    (h1 : op 1 = .error e1) (h2 : op 2 = .error e2) (h3 : op 3 = .error e3) :
    pRetry 2 op =
      { result := .error ((mainError [e1, e2, e3]).getD e3),
        hookCalls := 3, attempts := 3 } := by
  simp [pRetry, pRetryTyped, pRetryGo, h1, h2, h3]

/-- A two-iteration oracle family: iteration 0 has all funding attempts
rejected, iteration 1 succeeds everywhere. -/
def envMix : Nat → IterEnv := fun i => if i = 0 then envFundFail i else envAllOk i

/-- `cfgOk` with zero iterations requested. -/
def cfgZero : Config := { cfgOk with num := 0 }

/-! ### Claim theorems -/

/-- Claim C1: for every N and every pattern of per-iteration failures,
the results sequence persisted in the run summary has exactly one entry
per iteration attempted, N entries in total, with indices 0..N-1 in
iteration order — no iteration is silently dropped. -/
theorem results_one_entry_per_iteration (cfg : Config) (envs : Nat → IterEnv)
    (h : configMissing cfg = false) :
    ∃ s, (runProcess cfg envs).summary = some s ∧
      s.results.length = cfg.num ∧
      ∀ j (hj : j < s.results.length), (s.results.get ⟨j, hj⟩).index = j := by
  refine ⟨{ rpc := cfg.rpc.getD "", contract := cfg.contract.getD "",
            rateSeconds := RATE_SECONDS cfg.rate, fundAmount := cfg.amount,
            results := (mainLoop cfg envs cfg.num).1 }, ?_, ?_, ?_⟩
  · simp [runProcess, h]
  · simp [mainLoop_results_eq]
  · intro j hj
    simp only [List.get_eq_getElem]
    simp [mainLoop_results_eq, runIteration_index]

/-- Witness for C1: a concrete two-iteration run whose first iteration
fails at the funding step. -/
theorem results_one_entry_per_iteration_witness :
    ∃ s, (runProcess cfgOk envMix).summary = some s ∧
      s.results.length = cfgOk.num ∧
      ∀ j (hj : j < s.results.length), (s.results.get ⟨j, hj⟩).index = j :=
  results_one_entry_per_iteration cfgOk envMix rfl

/-- Iteration oracles whose every store attempt has a failing gas
estimation but a submission that would succeed with any gas limit. -/
def envEstFail : IterEnv :=
  { envAllOk 0 with storeAttempts := fun _ => storeEnvEstFail }

/-- Claim C2 (code bug): when gas estimation fails, the submission does
not proceed with the 300000 fallback — the catch block of line 141
itself throws `TypeError: ethers.BigInt is not a function`, `p-retry`
rejects a TypeError after the first attempt without retrying and without
invoking the observation hook, and `sendStoreMessageTx` surfaces the
failure to the orchestrator, even though submitting with the 300000
fallback would have been possible. -/
theorem gas_estimation_failure_surfaces (env : IterEnv) (b : Nat) (e : String)
    (hb : env.balance = .ok b)
    (hest : (env.storeAttempts 1).estimateGas = .error e) :
    storeAttempt (env.storeAttempts 1) =
      .error (.typeError "ethers.BigInt is not a function") ∧
    (sendStoreMessageTx env).result = .error "ethers.BigInt is not a function" ∧
    (sendStoreMessageTx env).attempts = 1 ∧
    (sendStoreMessageTx env).hookCalls = 0 := by
  have hatt : storeAttempt (env.storeAttempts 1) =
      .error (.typeError "ethers.BigInt is not a function") := by
    simp [storeAttempt, hest]
  refine ⟨hatt, ?_, ?_, ?_⟩ <;>
    simp [sendStoreMessageTx, hb, pRetryTyped, pRetryGo, hatt]

/-- Witness for C2: concrete oracles whose estimation always fails while
the submission itself would succeed. -/
theorem gas_estimation_failure_surfaces_witness :
    storeAttempt (envEstFail.storeAttempts 1) =
      .error (.typeError "ethers.BigInt is not a function") ∧
    (sendStoreMessageTx envEstFail).result =
      .error "ethers.BigInt is not a function" ∧
    (sendStoreMessageTx envEstFail).attempts = 1 ∧
    (sendStoreMessageTx envEstFail).hookCalls = 0 :=
  gas_estimation_failure_surfaces envEstFail 2000000000000 "execution reverted"
    rfl rfl

/-- Claim C4: only missing startup configuration (RPC URL, contract
address, funder key) reaches the process boundary, with exit code 1 and
no iterations run; with the configuration present, every per-iteration
failure pattern still yields a completed run with all N results recorded
and exit code 0. -/
theorem only_config_error_propagates (cfg : Config) (envs : Nat → IterEnv) :
    (configMissing cfg = true →
      runProcess cfg envs = { exitCode := 1, summary := none, events := [] }) ∧
    (configMissing cfg = false →
      (runProcess cfg envs).exitCode = 0 ∧
      ∃ s, (runProcess cfg envs).summary = some s ∧ s.results.length = cfg.num) := by
  constructor
  · intro h
    simp [runProcess, h]
  · intro h
    refine ⟨by simp [runProcess, h], ?_⟩
    refine ⟨{ rpc := cfg.rpc.getD "", contract := cfg.contract.getD "",
              rateSeconds := RATE_SECONDS cfg.rate, fundAmount := cfg.amount,
              results := (mainLoop cfg envs cfg.num).1 }, ?_, ?_⟩
    · simp [runProcess, h]
    · simp [mainLoop_results_eq]

/-- Witness for C4: a missing RPC URL exits 1 with no summary; a complete
configuration exits 0 even when every iteration fails at creation. -/
theorem only_config_error_propagates_witness :
    runProcess cfgMissingRpc envAllOk =
      { exitCode := 1, summary := none, events := [] } ∧
    (runProcess cfgOk envCreateFail).exitCode = 0 :=
  ⟨(only_config_error_propagates cfgMissingRpc envAllOk).1 rfl,
   ((only_config_error_propagates cfgOk envCreateFail).2 rfl).1⟩

/-- Claim C8: the effective rate delay is never below 1 second (a
configured 0 yields the 1 second floor), and the unconfigured default is
2 seconds. -/
theorem rate_delay_floor (r : Int) :
    1 ≤ RATE_SECONDS r ∧ RATE_SECONDS 0 = 1 ∧ RATE_SECONDS defaultRate = 2 :=
  ⟨le_max_left 1 r, by decide, by decide⟩

/-- Claim C9: with N = 0 no wallet-save, funding or payload events occur
at all, yet the run summary is still written, with an empty results
sequence. -/
theorem zero_iterations_summary (cfg : Config) (envs : Nat → IterEnv)
    (hn : cfg.num = 0) (hc : configMissing cfg = false) :
    runProcess cfg envs =
      { exitCode := 0
        summary := some
          { rpc := cfg.rpc.getD "", contract := cfg.contract.getD "",
            rateSeconds := RATE_SECONDS cfg.rate, fundAmount := cfg.amount,
            results := [] }
        events := [] } := by
  simp [runProcess, hc, hn, mainLoop]

/-- Witness for C9 at a concrete zero-iteration configuration. -/
theorem zero_iterations_summary_witness :
    runProcess cfgZero envAllOk =
      { exitCode := 0
        summary := some
          { rpc := cfgZero.rpc.getD "", contract := cfgZero.contract.getD "",
            rateSeconds := RATE_SECONDS cfgZero.rate,
            fundAmount := cfgZero.amount, results := [] }
        events := [] } :=
  zero_iterations_summary cfgZero envAllOk rfl rfl

/-- Iteration oracles for which attempts 1 and 2 of the funding call are
rejected with one message and attempt 3 with a different one. -/
def envFundFailAAB : IterEnv :=
  { envAllOk 0 with
      fundAttempts := fun k =>
        Except.error (if k ≤ 2 then "connection reset" else "nonce too low") }

/-- Claim C3 counterexample: with every funding attempt rejected, the
observation hook fires three times — once per failed attempt including
the final one — not exactly twice; moreover the propagated error is the
most frequent message seen by the retry engine, here the first failure, not the
last one. -/
theorem retry_policy_counterexample :
    (pRetry 2 envFundFailAAB.fundAttempts).hookCalls = 3 ∧
    ¬ (pRetry 2 envFundFailAAB.fundAttempts).hookCalls = 2 ∧
    (pRetry 2 envFundFailAAB.fundAttempts).result = .error "connection reset" ∧
    ¬ (pRetry 2 envFundFailAAB.fundAttempts).result = .error "nonce too low" := by
  refine ⟨by decide, by decide, by decide, by decide⟩

/-- Claim C3 (amended): for every funding operation in which the network
rejects all attempts, the Retry Policy makes at most 2 additional
attempts after the first (3 total), invokes the observation hook exactly
three times — once per failed attempt, including the final one — and
after exhausting retries propagates the last failure unchanged whenever
the failure messages are not two identical ones followed by a different
one; the orchestrator records the propagated failure as a `fund`-step
result. -/
theorem fund_retry_exhaustion (cfg : Config) (i : Nat) (env : IterEnv)
    (w : Wallet) (e1 e2 e3 : String)
    (hw : createWallet cfg env = .ok w)
    (h1 : env.fundAttempts 1 = .error e1)
    (h2 : env.fundAttempts 2 = .error e2)
    (h3 : env.fundAttempts 3 = .error e3)
    (hd : e1 ≠ e2 ∨ e2 = e3) :
    (pRetry 2 env.fundAttempts).attempts = 3 ∧
    (pRetry 2 env.fundAttempts).hookCalls = 3 ∧
    (pRetry 2 env.fundAttempts).result = .error e3 ∧
    (runIteration cfg i env).1 =
      { index := i, address := some w.address, status := "fail",
        step := some "fund", error := some e3 } := by
  have hp := pRetry_two_all_fail env.fundAttempts e1 e2 e3 h1 h2 h3
  rw [mainError_three e1 e2 e3 hd] at hp
  have hres : (pRetry 2 env.fundAttempts).result = .error e3 := by
    rw [hp]
    rfl
  refine ⟨by rw [hp], by rw [hp], hres, ?_⟩
  simp [runIteration, hw, hres]

/-- Witness for C3 (amended): concrete funding oracles rejected with
three distinct messages. -/
theorem fund_retry_exhaustion_witness :
    (pRetry 2 (envFundFail 0).fundAttempts).attempts = 3 ∧
    (pRetry 2 (envFundFail 0).fundAttempts).hookCalls = 3 ∧
    (pRetry 2 (envFundFail 0).fundAttempts).result = .error "nonce conflict 3" ∧
    (runIteration cfgOk 0 (envFundFail 0)).1 =
      { index := 0, address := some (wOk 0).address, status := "fail",
        step := some "fund", error := some "nonce conflict 3" } :=
  fund_retry_exhaustion cfgOk 0 (envFundFail 0) (wOk 0)
    "nonce conflict 1" "nonce conflict 2" "nonce conflict 3"
    rfl rfl rfl rfl (Or.inl (by decide))

/-- Claim C5 counterexample: with HD mode requested, the seed phrase
absent and the startup configuration otherwise complete, the process does
not abort before the iterations: it runs its single iteration, records a
`create`-step failure for it, and exits zero. -/
theorem missing_mnemonic_counterexample :
    (runProcess cfgHdNoMnemonic envAllOk).exitCode = 0 ∧
    (runProcess cfgHdNoMnemonic envAllOk).summary.map RunSummary.results =
      some [{ index := 0, status := "fail", step := some "create",
              error := some "MNEMONIC required when --useHd is set." }] := by
  refine ⟨by decide, by decide⟩

/-- Claim C5 (amended): when deterministic (HD) mode is requested and the
seed phrase is absent (the startup configuration being otherwise
present), the run is not aborted: the missing seed phrase is only
detected inside per-iteration wallet creation, so every iteration records
a `create`-step failure carrying the MNEMONIC-required error, and the
process runs to completion and exits zero. -/
theorem missing_mnemonic_per_iteration (cfg : Config) (envs : Nat → IterEnv)
    (hhd : cfg.useHd = true) (hm : cfg.mnemonic = none)
    (hc : configMissing cfg = false) :
    (runProcess cfg envs).exitCode = 0 ∧
    ∃ s, (runProcess cfg envs).summary = some s ∧
      s.results = (List.range cfg.num).map (fun j =>
        { index := j, status := "fail", step := some "create",
          error := some "MNEMONIC required when --useHd is set." }) := by
  refine ⟨by simp [runProcess, hc], ?_⟩
  refine ⟨{ rpc := cfg.rpc.getD "", contract := cfg.contract.getD "",
            rateSeconds := RATE_SECONDS cfg.rate, fundAmount := cfg.amount,
            results := (mainLoop cfg envs cfg.num).1 }, ?_, ?_⟩
  · simp [runProcess, hc]
  · rw [mainLoop_results_eq]
    apply List.map_congr_left
    intro j hj
    simp [runIteration, createWallet, hhd, hm]

/-- Witness for C5 (amended) at the concrete HD configuration without a
seed phrase. -/
theorem missing_mnemonic_per_iteration_witness :
    (runProcess cfgHdNoMnemonic envAllOk).exitCode = 0 ∧
    ∃ s, (runProcess cfgHdNoMnemonic envAllOk).summary = some s ∧
      s.results = (List.range cfgHdNoMnemonic.num).map (fun j =>
        { index := j, status := "fail", step := some "create",
          error := some "MNEMONIC required when --useHd is set." }) :=
  missing_mnemonic_per_iteration cfgHdNoMnemonic envAllOk rfl rfl rfl

/-- Claim C6: when funding succeeds but the payload submission fails
after exhausting retries, the recorded result is a `fail` entry with step
`store`, the index of the iteration, no transaction hash — and the full
inter-iteration rate delay is still emitted for that iteration. -/
theorem store_failure_recorded_and_paced (cfg : Config) (i : Nat) (env : IterEnv)
    (w : Wallet) (f e : String)
    (hw : createWallet cfg env = .ok w)
    (hf : (pRetry 2 env.fundAttempts).result = .ok f)
    (hs : (sendStoreMessageTx env).result = .error e) :
    (runIteration cfg i env).1 =
      { index := i, address := some w.address, status := "fail",
        step := some "store", error := some e } ∧
    (runIteration cfg i env).1.txHash = none ∧
    Event.rateSleep (RATE_SECONDS cfg.rate * 1000) ∈ (runIteration cfg i env).2 := by
  refine ⟨?_, ?_, ?_⟩ <;> simp [runIteration, hw, hf, hs]

/-- Witness for C6: concrete oracles whose three store attempts are all
rejected. -/
theorem store_failure_recorded_and_paced_witness :
    (runIteration cfgOk 0 (envStoreFail 0)).1 =
      { index := 0, address := some (wOk 0).address, status := "fail",
        step := some "store", error := some "insufficient funds 3" } ∧
    (runIteration cfgOk 0 (envStoreFail 0)).1.txHash = none ∧
    Event.rateSleep (RATE_SECONDS cfgOk.rate * 1000) ∈
      (runIteration cfgOk 0 (envStoreFail 0)).2 :=
  store_failure_recorded_and_paced cfgOk 0 (envStoreFail 0) (wOk 0)
    "0xfundtx" "insufficient funds 3" rfl (by decide) (by decide)

/-- Claim C7: when funding fails after exhausting retries, the recorded
result is a `fail` entry with step `fund`, and neither the settle delay
nor the inter-iteration rate delay is applied for that iteration. -/
theorem fund_failure_skips_delays (cfg : Config) (i : Nat) (env : IterEnv)
    (w : Wallet) (e : String)
    (hw : createWallet cfg env = .ok w)
    (hf : (pRetry 2 env.fundAttempts).result = .error e) :
    (runIteration cfg i env).1 =
      { index := i, address := some w.address, status := "fail",
        step := some "fund", error := some e } ∧
    (∀ ms, Event.settleSleep ms ∉ (runIteration cfg i env).2) ∧
    (∀ ms, Event.rateSleep ms ∉ (runIteration cfg i env).2) := by
  refine ⟨?_, ?_, ?_⟩ <;> simp [runIteration, hw, hf]

/-- Witness for C7: concrete oracles whose three funding attempts are all
rejected. -/
theorem fund_failure_skips_delays_witness :
    (runIteration cfgOk 0 (envFundFail 0)).1 =
      { index := 0, address := some (wOk 0).address, status := "fail",
        step := some "fund", error := some "nonce conflict 3" } ∧
    (∀ ms, Event.settleSleep ms ∉ (runIteration cfgOk 0 (envFundFail 0)).2) ∧
    (∀ ms, Event.rateSleep ms ∉ (runIteration cfgOk 0 (envFundFail 0)).2) :=
  fund_failure_skips_delays cfgOk 0 (envFundFail 0) (wOk 0)
    "nonce conflict 3" rfl (by decide)

/-- Claim C10: every recorded result satisfies the field correspondence —
status `ok` exactly when a transaction hash is present and the step and
error fields are absent; status `fail` exactly when the step is one of
`create`, `fund`, `store` and an error string is present; and the address
is present exactly when the step is not `create`. -/
theorem result_field_correspondence (cfg : Config) (envs : Nat → IterEnv)
    (n : Nat) (r : IterationResult) (hr : r ∈ (mainLoop cfg envs n).1) :
    (r.status = "ok" ↔ (r.txHash.isSome ∧ r.step = none ∧ r.error = none)) ∧
    (r.status = "fail" ↔
      ((r.step = some "create" ∨ r.step = some "fund" ∨ r.step = some "store") ∧
        r.error.isSome)) ∧
    (r.address.isSome ↔ r.step ≠ some "create") := by
  rw [mainLoop_results_eq] at hr
  simp only [List.mem_map, List.mem_range] at hr
  obtain ⟨j, hjn, hjr⟩ := hr
  subst hjr
  rcases runIteration_shape cfg j (envs j) with
    ⟨e, hsh⟩ | ⟨a, e, hsh⟩ | ⟨a, e, hsh⟩ | ⟨a, h, hsh⟩ <;> rw [hsh] <;> simp

/-- The successful record of iteration 0 of a one-iteration all-success
run. -/
def okRecord0 : IterationResult :=
  { index := 0, address := some (wOk 0).address, status := "ok",
    txHash := some "0xstoretx" }

/-- Witness for C10 at the successful record of a concrete run. -/
theorem result_field_correspondence_witness :
    (okRecord0.status = "ok" ↔
      (okRecord0.txHash.isSome ∧ okRecord0.step = none ∧ okRecord0.error = none)) ∧
    (okRecord0.status = "fail" ↔
      ((okRecord0.step = some "create" ∨ okRecord0.step = some "fund" ∨
        okRecord0.step = some "store") ∧ okRecord0.error.isSome)) ∧
    (okRecord0.address.isSome ↔ okRecord0.step ≠ some "create") :=
  result_field_correspondence cfgOk envAllOk 1 okRecord0 (by decide)

end SmartFarm
